import Mathlib

/-!
Verification development for the `infinite-bookshelf` book generator.

The Python sources are shallowly embedded as follows:
- `GenerationStatistics` (src/book_generator/models.py) becomes a Lean
  structure; Python `float` durations are modelled as exact rationals
  (`Rat`), Python `int` token counts as `Int`.
- `Section`/`Book` (src/book_generator/models.py): Python's insertion-ordered
  `dict` of sections keyed by title is modelled as an ordered key/value list
  (`SectionMap`), with `insert` reproducing `d[k] = v` semantics (replace in
  place when the key exists, append otherwise).
- The parsed outline JSON object (the result of `json.loads` in
  `BookGenerator.generate_book`) is modelled as an ordered field list
  (`Outline`) whose values are strings, nested objects, or other JSON
  values (numbers, arrays, booleans, null) which are neither `str` nor
  `dict` for `isinstance`.
- `BookGenerator.generate_book` (src/book_generator/generator.py) is a
  Python generator interacting with the Groq client; the client's responses
  are abstracted as an oracle `Env` indexed by the topic (responses depend
  only on outbound prompts, which are built from the topic and options).
  The generator's observable behaviour is the list of events it yields,
  paired with an optional fatal error raised after those events.
-/

namespace InfiniteBookshelf

/-- The hard-coded `default_model` assigned in `BookGenerator.__init__`. -/
def default_model : String := "llama-3.3-70b-specdec"

/-- Embedding of `GenerationStatistics` from src/book_generator/models.py.
Durations (`float` in Python) are modelled as rationals; token counts as
integers. Field defaults mirror the Python dataclass defaults. -/
structure GenerationStatistics where
  model_name : String
  input_time : Rat := 0
  output_time : Rat := 0
  input_tokens : Int := 0
  output_tokens : Int := 0
  total_time : Rat := 0
  deriving DecidableEq

/-- `GenerationStatistics.get_input_speed`:
`self.input_tokens / self.input_time if self.input_time != 0 else 0`. -/
def GenerationStatistics.get_input_speed (s : GenerationStatistics) : Rat :=
  if s.input_time ≠ 0 then (s.input_tokens : Rat) / s.input_time else 0

/-- `GenerationStatistics.get_output_speed`:
`self.output_tokens / self.output_time if self.output_time != 0 else 0`. -/
def GenerationStatistics.get_output_speed (s : GenerationStatistics) : Rat :=
  if s.output_time ≠ 0 then (s.output_tokens : Rat) / s.output_time else 0

/-- `GenerationStatistics.add`: mutates the receiver by adding the five
numeric fields of `other`; modelled functionally as returning the updated
receiver. The Python `isinstance` guard cannot fire in this typed
embedding (both arguments are statistics records by type). The receiver's
`model_name` is kept unchanged, exactly as in the source. -/
def GenerationStatistics.add (self other : GenerationStatistics) :
    GenerationStatistics :=
  { self with
    input_time := self.input_time + other.input_time
    output_time := self.output_time + other.output_time
    input_tokens := self.input_tokens + other.input_tokens
    output_tokens := self.output_tokens + other.output_tokens
    total_time := self.total_time + other.total_time }

/-- Ordered mapping from title keys to sections, embedding the Python
insertion-ordered `dict` `Book.sections` / `Section.subsections`. Each
`cons` cell stores the dict key together with the stored section's three
fields (title, content, subsections), flattening the nested
`Section` record into the list node to keep recursion structural. -/
inductive SectionMap where
  | nil : SectionMap
  | cons (key : String) (title : String) (content : String)
      (subsections : SectionMap) (rest : SectionMap) : SectionMap
  deriving DecidableEq

/-- Embedding of the `Section` dataclass from src/book_generator/models.py. -/
structure Section where
  title : String
  content : String
  subsections : SectionMap
  deriving DecidableEq

/-- Embedding of the `Book` dataclass from src/book_generator/models.py. -/
structure Book where
  title : String
  sections : SectionMap
  deriving DecidableEq

/-- Python `d[k] = v` on an insertion-ordered dict: if the key is present,
replace the stored value in place; otherwise append the binding. -/
def SectionMap.insert : SectionMap → String → Section → SectionMap
  | .nil, k, s => .cons k s.title s.content s.subsections .nil
  | .cons k' t c sub rest, k, s =>
    if k' = k then .cons k' s.title s.content s.subsections rest
    else .cons k' t c sub (rest.insert k s)

/-- Python `d.get(k)` on the ordered dict: first binding with the key. -/
def SectionMap.find? : SectionMap → String → Option Section
  | .nil, _ => none
  | .cons k t c sub rest, key =>
    if k = key then some ⟨t, c, sub⟩ else rest.find? key

/-- Keys of the ordered dict, in insertion order. -/
def SectionMap.keys : SectionMap → List String
  | .nil => []
  | .cons k _ _ _ rest => k :: rest.keys

/-- Python `'#' * level`. -/
def hashes : Nat → String
  | 0 => ""
  | n + 1 => "#" ++ hashes n

/-- The recursive `process_section` part of `Book.to_markdown`, fused over
an ordered section map: each section contributes
`f"{'#' * level} {title}\n{content}\n\n"`, then its subsections at
`level + 1`, then the following siblings at the same level. -/
def SectionMap.render : SectionMap → Nat → String
  | .nil, _ => ""
  | .cons _ title content subs rest, level =>
    hashes level ++ " " ++ title ++ "\n" ++ content ++ "\n\n"
      ++ subs.render (level + 1) ++ rest.render level

/-- Embedding of `Book.to_markdown`: the document title as `f"# {title}\n\n"`
followed by each top-level section processed at level 1. -/
def Book.to_markdown (b : Book) : String :=
  "# " ++ b.title ++ "\n\n" ++ b.sections.render 1

/-- Ordered field list of a parsed outline JSON object, as consumed by
`BookGenerator._flatten_structure`. A field's value is a string
(`consStr`), a nested object (`consObj`), or any other JSON value —
number, array, boolean, null — which is neither `str` nor `dict`
(`consOther`). -/
inductive Outline where
  | nil : Outline
  | consStr (title : String) (desc : String) (rest : Outline) : Outline
  | consObj (title : String) (sub : Outline) (rest : Outline) : Outline
  | consOther (title : String) (rest : Outline) : Outline
  deriving DecidableEq

/-- Embedding of `BookGenerator._flatten_structure`: iterate the object's
fields in order; append `(title, content)` for a string value, splice in
the recursively flattened fields for a dict value, and fall through (no
`else` branch in the source) for any other value. -/
def flatten_structure : Outline → List (String × String)
  | .nil => []
  | .consStr t d rest => (t, d) :: flatten_structure rest
  | .consObj _ sub rest => flatten_structure sub ++ flatten_structure rest
  | .consOther _ rest => flatten_structure rest

/-- Whitespace characters removed by Python `str.strip()` (ASCII subset). -/
def pyIsSpace (c : Char) : Bool :=
  c = ' ' ∨ c = '\t' ∨ c = '\n' ∨ c = '\r' ∨ c = '\x0b' ∨ c = '\x0c'

/-- Python `str.strip()`: drop leading and trailing whitespace, as applied to
the title response in `BookGenerator._generate_title`. -/
def pyStrip (s : String) : String :=
  ⟨((s.data.dropWhile pyIsSpace).reverse.dropWhile pyIsSpace).reverse⟩

/-- Usage payload reported by the provider for one request
(`completion.usage` / `x_groq.usage` fields read by the source). -/
structure Usage where
  prompt_time : Rat
  completion_time : Rat
  prompt_tokens : Int
  completion_tokens : Int
  total_time : Rat
  deriving DecidableEq

/-- The statistics record the source builds from a provider usage payload,
in `_generate_structure` and `_generate_section`: `model_name` is the
orchestrator's `default_model`, prompt fields map to input fields and
completion fields to output fields. -/
def statsOfUsage (u : Usage) : GenerationStatistics :=
  { model_name := default_model
    input_time := u.prompt_time
    output_time := u.completion_time
    input_tokens := u.prompt_tokens
    output_tokens := u.completion_tokens
    total_time := u.total_time }

/-- One chunk of a streamed completion response as read by
`_generate_section`: `deltaContent` is `chunk.choices[0].delta.content`
(`none` models Python `None`), `xGroq` is the optional `chunk.x_groq`
attachment whose own `usage` field is again optional. -/
structure RawChunk where
  deltaContent : Option String
  xGroq : Option (Option Usage)

/-- An element yielded by the `_generate_section` generator: a text
fragment or a per-request statistics record. -/
inductive SectionEvent where
  | text (s : String) : SectionEvent
  | stats (g : GenerationStatistics) : SectionEvent
  deriving DecidableEq

/-- What `_generate_section` yields for a single stream chunk: the delta
content if it is truthy (present and non-empty), then a statistics record
if `x_groq` is present and carries a usage payload (the `continue` in the
source merely skips that second yield). -/
def chunkEvents (c : RawChunk) : List SectionEvent :=
  (match c.deltaContent with
    | some s => if s = "" then [] else [SectionEvent.text s]
    | none => []) ++
  (match c.xGroq with
    | some (some u) => [SectionEvent.stats (statsOfUsage u)]
    | _ => [])

/-- Embedding of the `_generate_section` generator: the concatenation of
the per-chunk yields, in stream order. -/
def generateSection (chunks : List RawChunk) : List SectionEvent :=
  (chunks.map chunkEvents).flatten

/-- Events yielded to the caller of `generate_book`: a progress string, a
cumulative statistics snapshot, or the final book. -/
inductive Event where
  | progress (s : String) : Event
  | stats (g : GenerationStatistics) : Event
  | book (b : Book) : Event
  deriving DecidableEq

/-- Fatal exceptions `generate_book` can raise after the outline request:
`json.JSONDecodeError` from `json.loads` on invalid JSON, or the
`AttributeError` from calling `.items()` when the parsed value is not a
dict. -/
inductive GenError where
  | jsonDecodeError : GenError
  | attributeError : GenError
  deriving DecidableEq

/-- Result of `json.loads` on the outline response text: the text is not
valid JSON, or it parses to a non-object JSON value, or it parses to an
object with the given ordered field list. -/
inductive ParsedStructure where
  | notJson : ParsedStructure
  | nonObject : ParsedStructure
  | object (o : Outline) : ParsedStructure

/-- Oracle abstracting the Groq client for one orchestrator instance: each
request's response as a function of the topic driving the prompts (the
option strings only alter prompt text, so they are folded into the
oracle). `sectionStream` gives the streamed chunks for a section request
built from a `(title, description)` leaf. -/
structure Env where
  titleResponse : String → String
  structureUsage : String → Usage
  structureParsed : String → ParsedStructure
  sectionStream : String → String → List RawChunk

/-- The running accumulator created in `generate_book`:
`GenerationStatistics(model_name=self.default_model)`, all numeric fields
at their dataclass defaults of zero. -/
def initialStats : GenerationStatistics := { model_name := default_model }

/-- The inner `for chunk in content_stream` loop of `generate_book`, on the
events of one section stream: statistics chunks are merged into the running
total and the updated total is yielded; text chunks are appended to the
section content. Returns the final total, the final content, and the list
of cumulative snapshots yielded, in order. -/
def processChunks (total : GenerationStatistics) (content : String) :
    List SectionEvent → GenerationStatistics × String × List GenerationStatistics
  | [] => (total, content, [])
  | .stats g :: rest =>
    let total' := total.add g
    let r := processChunks total' content rest
    (r.1, r.2.1, total' :: r.2.2)
  | .text s :: rest => processChunks total (content ++ s) rest

/-- One iteration of the outer section loop of `generate_book` for leaf
`(t, d)`: drain the section stream starting from running total `total`
and an empty section content. -/
def runLeaf (env : Env) (total : GenerationStatistics) (t d : String) :
    GenerationStatistics × String × List GenerationStatistics :=
  processChunks total "" (generateSection (env.sectionStream t d))

/-- The outer `for section_title, section_content in ...` loop of
`generate_book`: processes the flattened leaves in order, threading the
running total and the book's section dict, and collecting the yielded
events (each cumulative snapshot, wrapped as an `Event`). -/
def runLeaves (env : Env) (total : GenerationStatistics) (secs : SectionMap) :
    List (String × String) → SectionMap × List Event
  | [] => (secs, [])
  | (t, d) :: rest =>
    let r := runLeaf env total t d
    let secs' := secs.insert t ⟨t, r.2.1, .nil⟩
    let res := runLeaves env r.1 secs' rest
    (res.1, r.2.2.map Event.stats ++ res.2)

/-- Embedding of `BookGenerator.generate_book` for a given topic: the list
of events yielded to the caller, paired with the fatal error (if any)
raised after those events. The title progress message and the outline
statistics are yielded before `json.loads` runs; a parse failure or a
non-dict parse result then raises without further events; otherwise the
flattened leaves are processed and the completed book is the final
event. -/
def generate_book (env : Env) (topic : String) : List Event × Option GenError :=
  let title := pyStrip (env.titleResponse topic)
  let ev1 := Event.progress ("Generated title: " ++ title)
  let ev2 := Event.stats (statsOfUsage (env.structureUsage topic))
  match env.structureParsed topic with
  | .notJson => ([ev1, ev2], some .jsonDecodeError)
  | .nonObject => ([ev1, ev2], some .attributeError)
  | .object o =>
    let res := runLeaves env initialStats .nil (flatten_structure o)
    ([ev1, ev2] ++ res.2 ++ [Event.book ⟨title, res.1⟩], none)

/-- The book yielded as the final event of a successful run. -/
def generatedBook (env : Env) (topic : String) (o : Outline) : Book :=
  ⟨pyStrip (env.titleResponse topic),
    (runLeaves env initialStats .nil (flatten_structure o)).1⟩

/-- Accumulated concatenation of the text fragments in a section-event
list, starting from `content` (mirroring `section.content += chunk`). -/
def eventTexts (content : String) : List SectionEvent → String
  | [] => content
  | .text s :: rest => eventTexts (content ++ s) rest
  | .stats _ :: rest => eventTexts content rest

/-- The statistics records in a section-event list, in order. -/
def eventStats : List SectionEvent → List GenerationStatistics
  | [] => []
  | .text _ :: rest => eventStats rest
  | .stats g :: rest => g :: eventStats rest

/-- Running partial merges: the successive values of an accumulator that
starts at `init` and has each element of the list merged in turn. -/
def partialSums (init : GenerationStatistics) :
    List GenerationStatistics → List GenerationStatistics
  | [] => []
  | g :: rest =>
    let t := init.add g
    t :: partialSums t rest

/-- The content a section ends up with for leaf `(t, d)`: all truthy text
fragments of its stream, concatenated in order. -/
def sectionText (env : Env) (t d : String) : String :=
  eventTexts "" (generateSection (env.sectionStream t d))

/-- The statistics records carried by one stream chunk (one if `x_groq`
with a usage payload is attached, none otherwise). -/
def chunkStatsList (c : RawChunk) : List GenerationStatistics :=
  match c.xGroq with
  | some (some u) => [statsOfUsage u]
  | _ => []

/-- All per-request statistics records delivered by one section stream. -/
def streamStats (chunks : List RawChunk) : List GenerationStatistics :=
  (chunks.map chunkStatsList).flatten

/-- All per-request statistics records delivered by the section streams of
a leaf list, in generation order. -/
def allUsages (env : Env) (leaves : List (String × String)) :
    List GenerationStatistics :=
  (leaves.map (fun p => streamStats (env.sectionStream p.1 p.2))).flatten

/-- The cumulative snapshots yielded while processing a leaf list, starting
from running total `total`. -/
def runStats (env : Env) (total : GenerationStatistics) :
    List (String × String) → List GenerationStatistics
  | [] => []
  | (t, d) :: rest =>
    let r := runLeaf env total t d
    r.2.2 ++ runStats env r.1 rest

/-- The section dict built by the outer loop: a left fold of dict
insertions of the per-leaf sections. -/
def buildSections (env : Env) (secs : SectionMap)
    (leaves : List (String × String)) : SectionMap :=
  leaves.foldl (fun m p => m.insert p.1 ⟨p.1, sectionText env p.1 p.2, .nil⟩) secs

/-- The description of the last leaf with the given title, if any. -/
def lastDesc (leaves : List (String × String)) (t : String) : Option String :=
  leaves.foldl (fun acc p => if p.1 = t then some p.2 else acc) none

/-- Whether a stream chunk carries a usage payload. -/
def RawChunk.hasUsage (c : RawChunk) : Bool :=
  match c.xGroq with
  | some (some _) => true
  | _ => false

/-- The `input_tokens` field of a statistics event, for inspecting traces
without deciding equality of rational duration fields. -/
def eventInputTokens : Event → Option Int
  | .stats g => some g.input_tokens
  | _ => none

/-- Outcome of constructing the orchestrator. -/
inductive InitOutcome where
  | ok : InitOutcome
  | configError : InitOutcome
  deriving DecidableEq

/-- Modelled from the spec: the external Groq client constructor invoked by
`BookGenerator.__init__` (the `groq` package is not part of this
repository, so it is modelled from the spec's words). Per the spec the
credential is "required at orchestrator construction time; fails fast if
absent": an explicitly passed key value is used as-is, an absent (`None`)
key falls back to the `GROQ_API_KEY` process-environment value, and
construction fails with a configuration error only when no key value is
available at all. A present-but-empty string is a value, not an absent
key, so it is accepted at construction. -/
def groqInit (api_key : Option String) (env_api_key : Option String) :
    InitOutcome :=
  match api_key with
  | some _ => .ok
  | none =>
    match env_api_key with
    | some _ => .ok
    | none => .configError

/-- Embedding of `BookGenerator.__init__`: it performs no credential
validation of its own; it only constructs the client with the given key
(and sets `default_model`). -/
def bookGeneratorInit (api_key : Option String) (env_api_key : Option String) :
    InitOutcome :=
  groqInit api_key env_api_key

/-- Outcome of the example entry point's credential handling. -/
inductive MainOutcome where
  | valueError : MainOutcome
  | constructed (r : InitOutcome) : MainOutcome
  deriving DecidableEq

/-- Embedding of the credential handling in `main` (src/example.py):
`api_key = os.getenv("GROQ_API_KEY")` is `envValue`; a falsy value
(absent, or the empty string) raises
`ValueError("GROQ_API_KEY environment variable is not set")` before the
orchestrator is constructed and before any request; otherwise
`BookGenerator(api_key=api_key)` is constructed. -/
def mainInit (envValue : Option String) : MainOutcome :=
  match envValue with
  | none => .valueError
  | some s =>
    if s = "" then .valueError
    else .constructed (bookGeneratorInit (some s) envValue)

/-- Concrete outline from the spec's flattening example:
`{"A": "descA", "B": {"B1": "descB1", "B2": "descB2"}}`. -/
def outlineC6 : Outline :=
  .consStr "A" "descA"
    (.consObj "B" (.consStr "B1" "descB1" (.consStr "B2" "descB2" .nil)) .nil)

/-- Concrete single-leaf outline used by several witnesses. -/
def outlineW1 : Outline := .consStr "A" "dA" .nil

/-- Concrete environment witnessing a successful full run: one leaf whose
stream delivers one text fragment and one usage payload. -/
def envW1 : Env :=
  { titleResponse := fun _ => " T "
    structureUsage := fun _ => ⟨1, 2, 7, 9, 3⟩
    structureParsed := fun _ => .object outlineW1
    sectionStream := fun _ d => [⟨some d, some (some ⟨0, 0, 5, 0, 0⟩)⟩] }

/-- Outline for the cumulative-statistics counterexample. -/
def outlineC2 : Outline := .consStr "S" "dS" .nil

/-- Environment for the cumulative-statistics counterexample: the outline
request reports 7 input tokens, the single section stream reports 5. -/
def envC2 : Env :=
  { titleResponse := fun _ => "T"
    structureUsage := fun _ => ⟨0, 0, 7, 0, 0⟩
    structureParsed := fun _ => .object outlineC2
    sectionStream := fun _ _ => [⟨none, some (some ⟨0, 0, 5, 0, 0⟩)⟩] }

/-- Outline whose first entry is a JSON value that is neither a string nor
an object (for example a number), followed by a normal string leaf. -/
def outlineC4 : Outline := .consOther "A" (.consStr "B" "dB" .nil)

/-- Environment whose outline response parses to `outlineC4`. -/
def envC4 : Env :=
  { titleResponse := fun _ => "T"
    structureUsage := fun _ => ⟨0, 0, 0, 0, 0⟩
    structureParsed := fun _ => .object outlineC4
    sectionStream := fun _ d => [⟨some d, none⟩] }

/-- Environment whose outline response is not valid JSON. -/
def envC4bad : Env :=
  { titleResponse := fun _ => "T"
    structureUsage := fun _ => ⟨0, 0, 0, 0, 0⟩
    structureParsed := fun _ => .notJson
    sectionStream := fun _ _ => [] }

/-- Environment whose single section stream delivers a text chunk without
usage information and a final chunk whose `x_groq` payload carries no
usage either. -/
def envW8 : Env :=
  { titleResponse := fun _ => "T"
    structureUsage := fun _ => ⟨0, 0, 0, 0, 0⟩
    structureParsed := fun _ => .object (.consStr "S" "dS" .nil)
    sectionStream := fun _ _ => [⟨some "hello", none⟩, ⟨none, some none⟩] }

/-- Outline with two leaves sharing the title "A". -/
def outlineW10 : Outline := .consStr "A" "d1" (.consStr "A" "d2" .nil)

/-- Environment for the duplicate-title witness: each section stream echoes
the leaf description as the section text. -/
def envW10 : Env :=
  { titleResponse := fun _ => "T"
    structureUsage := fun _ => ⟨0, 0, 0, 0, 0⟩
    structureParsed := fun _ => .object outlineW10
    sectionStream := fun _ d => [⟨some d, none⟩] }

/-- Concrete statistics record with both time fields zero. -/
def statsZeroTimes : GenerationStatistics :=
  { model_name := "m", input_time := 0, output_time := 0,
    input_tokens := 3, output_tokens := 4, total_time := 0 }

/-- Concrete statistics record with both time fields nonzero. -/
def statsPosTimes : GenerationStatistics :=
  { model_name := "m", input_time := 2, output_time := 4,
    input_tokens := 3, output_tokens := 4, total_time := 6 }

theorem processChunks_eq (evs : List SectionEvent) :
    ∀ total content, processChunks total content evs =
      ((eventStats evs).foldl GenerationStatistics.add total,
        eventTexts content evs, partialSums total (eventStats evs)) := by
  induction evs with
  | nil => intro total content; rfl
  | cons e rest ih =>
    intro total content
    cases e with
    | text s => simpa [processChunks, eventStats, eventTexts, partialSums] using ih total (content ++ s)
    | stats g => simp [processChunks, eventStats, eventTexts, partialSums, ih]

theorem eventStats_append (l₁ l₂ : List SectionEvent) :
    eventStats (l₁ ++ l₂) = eventStats l₁ ++ eventStats l₂ := by
  induction l₁ with
  | nil => rfl
  | cons e rest ih => cases e <;> simp [eventStats, ih]

theorem eventStats_chunkEvents (c : RawChunk) :
    eventStats (chunkEvents c) = chunkStatsList c := by
  cases c with
  | mk dc xg =>
    cases dc with
    | none =>
      cases xg with
      | none => rfl
      | some u => cases u <;> rfl
    | some s =>
      by_cases hs : s = "" <;>
        cases xg with
        | none => simp [chunkEvents, chunkStatsList, eventStats, hs]
        | some u => cases u <;> simp [chunkEvents, chunkStatsList, eventStats, hs]

theorem eventStats_generateSection (chunks : List RawChunk) :
    eventStats (generateSection chunks) = streamStats chunks := by
  induction chunks with
  | nil => rfl
  | cons c rest ih =>
    simp [generateSection, streamStats] at ih ⊢
    simp [eventStats_append, eventStats_chunkEvents, ih]

theorem partialSums_append (l₁ l₂ : List GenerationStatistics) :
    ∀ init, partialSums init (l₁ ++ l₂) =
      partialSums init l₁ ++
        partialSums (l₁.foldl GenerationStatistics.add init) l₂ := by
  induction l₁ with
  | nil => intro init; rfl
  | cons g rest ih => intro init; simp [partialSums, ih]

theorem runStats_eq (env : Env) (leaves : List (String × String)) :
    ∀ total, runStats env total leaves =
      partialSums total (allUsages env leaves) := by
  induction leaves with
  | nil => intro total; rfl
  | cons p rest ih =>
    intro total
    obtain ⟨t, d⟩ := p
    simp only [runStats, runLeaf, processChunks_eq, eventStats_generateSection,
      allUsages, List.map_cons, List.flatten_cons, partialSums_append, ih]

theorem runLeaves_snd (env : Env) (leaves : List (String × String)) :
    ∀ total secs, (runLeaves env total secs leaves).2 =
      (runStats env total leaves).map Event.stats := by
  induction leaves with
  | nil => intro total secs; rfl
  | cons p rest ih =>
    intro total secs
    obtain ⟨t, d⟩ := p
    simp [runLeaves, runStats, ih]

theorem runLeaves_fst (env : Env) (leaves : List (String × String)) :
    ∀ total secs, (runLeaves env total secs leaves).1 =
      buildSections env secs leaves := by
  induction leaves with
  | nil => intro total secs; rfl
  | cons p rest ih =>
    intro total secs
    obtain ⟨t, d⟩ := p
    simp only [runLeaves, buildSections, List.foldl_cons]
    rw [ih]
    simp only [buildSections, runLeaf, processChunks_eq, sectionText]

/-- Shape of a successful run: the trace is the title progress message,
the outline statistics, the cumulative snapshots, and the final book. -/
theorem generate_book_shape (env : Env) (topic : String) (o : Outline)
    (h : env.structureParsed topic = .object o) :
    generate_book env topic =
      (Event.progress ("Generated title: " ++ pyStrip (env.titleResponse topic)) ::
        Event.stats (statsOfUsage (env.structureUsage topic)) ::
        ((runStats env initialStats (flatten_structure o)).map Event.stats ++
          [Event.book (generatedBook env topic o)]), none) := by
  simp only [generate_book, h, generatedBook]
  rw [runLeaves_snd]
  rfl

theorem SectionMap.find?_insert (m : SectionMap) (k : String) (s : Section) :
    ∀ k', (m.insert k s).find? k' = if k' = k then some s else m.find? k' := by
  induction m with
  | nil =>
    intro k'
    by_cases h : k' = k
    · subst h; simp [SectionMap.insert, SectionMap.find?]
    · simp [SectionMap.insert, SectionMap.find?, h, Ne.symm h]
  | cons k₀ t c sub rest ihsub ihrest =>
    intro k'
    by_cases h0 : k₀ = k
    · subst h0
      by_cases h : k' = k₀
      · subst h; simp [SectionMap.insert, SectionMap.find?]
      · simp [SectionMap.insert, SectionMap.find?, h, Ne.symm h]
    · by_cases h : k₀ = k'
      · subst h
        simp [SectionMap.insert, h0, SectionMap.find?, fun hh : k₀ = k => h0 hh]
      · simp [SectionMap.insert, h0, SectionMap.find?, h, ihrest]

theorem SectionMap.keys_insert (m : SectionMap) (k : String) (s : Section) :
    (m.insert k s).keys =
      if k ∈ m.keys then m.keys else m.keys ++ [k] := by
  induction m with
  | nil => simp [SectionMap.insert, SectionMap.keys]
  | cons k₀ t c sub rest ihsub ihrest =>
    by_cases h0 : k₀ = k
    · subst h0
      simp [SectionMap.insert, SectionMap.keys]
    · have hne : ¬ k = k₀ := fun hh => h0 hh.symm
      by_cases hm : k ∈ rest.keys
      · simp [SectionMap.insert, h0, SectionMap.keys, ihrest, hm, hne]
      · simp [SectionMap.insert, h0, SectionMap.keys, ihrest, hm, hne]

theorem SectionMap.mem_keys_insert (m : SectionMap) (k : String) (s : Section)
    (t : String) : t ∈ (m.insert k s).keys ↔ t ∈ m.keys ∨ t = k := by
  rw [SectionMap.keys_insert]
  by_cases hm : k ∈ m.keys
  · simp only [hm, if_true]
    constructor
    · exact fun h => Or.inl h
    · rintro (h | rfl)
      · exact h
      · exact hm
  · simp [hm]

theorem SectionMap.nodup_keys_insert (m : SectionMap) (k : String) (s : Section)
    (h : m.keys.Nodup) : (m.insert k s).keys.Nodup := by
  rw [SectionMap.keys_insert]
  by_cases hm : k ∈ m.keys
  · simpa [hm] using h
  · simp only [hm, if_false]
    refine List.Nodup.append h (List.nodup_singleton k) ?_
    intro a ha hb
    rw [List.mem_singleton] at hb
    subst hb
    exact hm ha

theorem lastDesc_foldl (t : String) (leaves : List (String × String)) :
    ∀ init, leaves.foldl (fun acc p => if p.1 = t then some p.2 else acc) init =
      match lastDesc leaves t with
      | some d => some d
      | none => init := by
  induction leaves with
  | nil => intro init; rfl
  | cons p rest ih =>
    intro init
    simp only [List.foldl_cons]
    rw [ih (if p.1 = t then some p.2 else init)]
    have hcons : lastDesc (p :: rest) t =
        match lastDesc rest t with
        | some d => some d
        | none => if p.1 = t then some p.2 else none := by
      show (p :: rest).foldl _ none = _
      simp only [List.foldl_cons]
      exact ih (if p.1 = t then some p.2 else none)
    rw [hcons]
    cases lastDesc rest t with
    | some d => rfl
    | none => by_cases hp : p.1 = t <;> simp [hp]

theorem buildSections_find? (env : Env) (t : String)
    (leaves : List (String × String)) :
    ∀ secs, (buildSections env secs leaves).find? t =
      match lastDesc leaves t with
      | some d => some ⟨t, sectionText env t d, .nil⟩
      | none => secs.find? t := by
  induction leaves with
  | nil => intro secs; rfl
  | cons p rest ih =>
    intro secs
    obtain ⟨k, d⟩ := p
    simp only [buildSections, List.foldl_cons] at ih ⊢
    rw [ih]
    have hlast : lastDesc ((k, d) :: rest) t =
        match lastDesc rest t with
        | some d' => some d'
        | none => if k = t then some d else none := by
      simp only [lastDesc, List.foldl_cons]
      exact lastDesc_foldl t rest (if k = t then some d else none)
    rw [hlast]
    cases hrest : lastDesc rest t with
    | some d' => simp
    | none =>
      simp only
      rw [SectionMap.find?_insert]
      by_cases hk : t = k
      · subst hk; simp
      · simp [hk, Ne.symm hk]

theorem buildSections_mem_keys (env : Env) (t : String)
    (leaves : List (String × String)) :
    ∀ secs, t ∈ (buildSections env secs leaves).keys ↔
      t ∈ secs.keys ∨ t ∈ leaves.map Prod.fst := by
  induction leaves with
  | nil => intro secs; simp [buildSections]
  | cons p rest ih =>
    intro secs
    obtain ⟨k, d⟩ := p
    simp only [buildSections, List.foldl_cons] at ih ⊢
    rw [ih, SectionMap.mem_keys_insert]
    simp only [List.map_cons, List.mem_cons]
    tauto

theorem buildSections_nodup_keys (env : Env)
    (leaves : List (String × String)) :
    ∀ secs, secs.keys.Nodup → (buildSections env secs leaves).keys.Nodup := by
  induction leaves with
  | nil => intro secs h; exact h
  | cons p rest ih =>
    intro secs h
    obtain ⟨k, d⟩ := p
    exact ih _ (SectionMap.nodup_keys_insert secs k _ h)

theorem partialSums_length (l : List GenerationStatistics) :
    ∀ init, (partialSums init l).length = l.length := by
  induction l with
  | nil => intro init; rfl
  | cons g rest ih => intro init; simp [partialSums, ih]

theorem partialSums_getElem? (l : List GenerationStatistics) :
    ∀ init k, k < l.length →
      (partialSums init l)[k]? =
        some ((l.take (k + 1)).foldl GenerationStatistics.add init) := by
  induction l with
  | nil => intro init k hk; simp at hk
  | cons g rest ih =>
    intro init k hk
    cases k with
    | zero => simp [partialSums]
    | succ k' =>
      have hk' : k' < rest.length := by simpa using hk
      simp only [partialSums, List.getElem?_cons_succ, List.take_succ_cons,
        List.foldl_cons]
      exact ih (init.add g) k' hk'

theorem streamStats_of_no_usage (chunks : List RawChunk)
    (h : ∀ c ∈ chunks, c.hasUsage = false) : streamStats chunks = [] := by
  induction chunks with
  | nil => rfl
  | cons c rest ih =>
    have hc : c.hasUsage = false := h c (by simp)
    have hcs : chunkStatsList c = [] := by
      cases hx : c.xGroq with
      | none => simp [chunkStatsList, hx]
      | some u =>
        cases u with
        | none => simp [chunkStatsList, hx]
        | some v => simp [RawChunk.hasUsage, hx] at hc
    simp only [streamStats, List.map_cons, List.flatten_cons, hcs,
      List.nil_append]
    exact ih fun c' hc' => h c' (by simp [hc'])

/-- C1: on a successful run (valid non-empty topic, outline response
parsing to a JSON object), `generate_book` yields exactly one progress
message announcing the generated title, then exactly one statistics event
for the outline request, then the cumulative snapshots of the per-leaf
section streams (all of them statistics events, in flattening order), and
finally exactly one `Book` event after which nothing follows (and no
error is raised). -/
theorem generate_book_event_order (env : Env) (topic : String) (o : Outline)
    (_htopic : topic ≠ "") (h : env.structureParsed topic = .object o) :
    generate_book env topic =
      (Event.progress ("Generated title: " ++ pyStrip (env.titleResponse topic)) ::
        Event.stats (statsOfUsage (env.structureUsage topic)) ::
        ((runStats env initialStats (flatten_structure o)).map Event.stats ++
          [Event.book (generatedBook env topic o)]), none) :=
  generate_book_shape env topic o h

/-- Witness for C1 at a concrete environment with one outline leaf. -/
theorem generate_book_event_order_witness :
    generate_book envW1 "ai" =
      (Event.progress ("Generated title: " ++ pyStrip (envW1.titleResponse "ai")) ::
        Event.stats (statsOfUsage (envW1.structureUsage "ai")) ::
        ((runStats envW1 initialStats (flatten_structure outlineW1)).map Event.stats ++
          [Event.book (generatedBook envW1 "ai" outlineW1)]), none) :=
  generate_book_event_order envW1 "ai" outlineW1 (by decide) rfl

/-- Counterexample to C2 as stated: in a run whose outline request reports
7 input tokens and whose single section stream reports 5, the first
cumulative snapshot (the third yielded event) carries 5 input tokens, not
the 12 that a field-wise sum over all requests issued so far (outline
included) would give. The outline statistics are yielded but never merged
into the running total. -/
theorem cumulative_stats_outline_not_merged_cex :
    ((generate_book envC2 "t").1[2]?).bind eventInputTokens = some 5 ∧
    ((generate_book envC2 "t").1[1]?).bind eventInputTokens = some 7 ∧
    (5 : Int) ≠ 7 + 5 :=
  ⟨rfl, rfl, by decide⟩

/-- C2 (amended): each cumulative snapshot yielded during one run equals
the result of merging, in order, the usage payloads received so far from
the per-section streams into the freshly zero-initialised accumulator;
the outline request's statistics are yielded once on their own but are
never merged into the cumulative total. -/
theorem cumulative_stats_running_total (env : Env) (topic : String)
    (o : Outline) (h : env.structureParsed topic = .object o) :
    (generate_book env topic).1 =
      Event.progress ("Generated title: " ++ pyStrip (env.titleResponse topic)) ::
        Event.stats (statsOfUsage (env.structureUsage topic)) ::
        ((runStats env initialStats (flatten_structure o)).map Event.stats ++
          [Event.book (generatedBook env topic o)]) ∧
    ∀ k, k < (runStats env initialStats (flatten_structure o)).length →
      (runStats env initialStats (flatten_structure o))[k]? =
        some (((allUsages env (flatten_structure o)).take (k + 1)).foldl
          GenerationStatistics.add initialStats) := by
  constructor
  · rw [generate_book_shape env topic o h]
  · intro k hk
    rw [runStats_eq] at hk ⊢
    rw [partialSums_length] at hk
    exact partialSums_getElem? _ initialStats k hk

/-- Witness for C2 at the counterexample environment: its single
cumulative snapshot is the zero accumulator merged with the one section
usage payload. -/
theorem cumulative_stats_running_total_witness :
    (runStats envC2 initialStats (flatten_structure outlineC2))[0]? =
      some (((allUsages envC2 (flatten_structure outlineC2)).take 1).foldl
        GenerationStatistics.add initialStats) :=
  (cumulative_stats_running_total envC2 "t" outlineC2 rfl).2 0 (by decide)

/-- Counterexample to C3 as stated: constructing the orchestrator with an
empty-string credential succeeds (the client accepts any present key
value), so an empty credential does not fail fast at construction time. -/
theorem empty_credential_constructs_cex :
    bookGeneratorInit (some "") none = .ok ∧
    InitOutcome.ok ≠ InitOutcome.configError :=
  ⟨rfl, by decide⟩

/-- C3 (amended): constructing the orchestrator with an absent credential
(no key argument and no environment key) fails fast with a configuration
error before any request; an empty-string credential is accepted at
construction; the example entry point, however, rejects both an absent
and an empty environment credential with a configuration error before
the orchestrator is constructed and before any request is attempted. -/
theorem credential_failfast :
    bookGeneratorInit none none = .configError ∧
    bookGeneratorInit (some "") none = .ok ∧
    mainInit none = .valueError ∧
    mainInit (some "") = .valueError ∧
    mainInit (some "k") = .constructed .ok :=
  ⟨rfl, rfl, rfl, rfl, rfl⟩

/-- Counterexample to C4 as stated: an outline entry whose value is
neither a string nor an object (here the first entry of `outlineC4`) is
silently dropped by flattening — generation completes with no error and
the final book simply has no section for that entry — rather than causing
a fatal parse error. -/
theorem non_string_entry_ignored_cex :
    (generate_book envC4 "t").2 = none ∧
    flatten_structure outlineC4 = [("B", "dB")] ∧
    (generatedBook envC4 "t" outlineC4).sections.find? "A" = none :=
  ⟨rfl, rfl, rfl⟩

/-- C4 (amended): if the outline response text is not valid JSON,
generation fails fatally with the JSON parse error after yielding only
the title-progress and outline-statistics events; if it parses to a
non-object, generation fails fatally with an attribute error at the same
point; but an outline entry whose value is neither a string nor an object
is silently skipped by `_flatten_structure` (the source has no `else`
branch), and a run whose outline parses to an object never raises. -/
theorem outline_parse_error_behavior (env : Env) (topic : String) :
    (env.structureParsed topic = .notJson →
      generate_book env topic =
        ([Event.progress ("Generated title: " ++ pyStrip (env.titleResponse topic)),
          Event.stats (statsOfUsage (env.structureUsage topic))],
          some GenError.jsonDecodeError)) ∧
    (env.structureParsed topic = .nonObject →
      generate_book env topic =
        ([Event.progress ("Generated title: " ++ pyStrip (env.titleResponse topic)),
          Event.stats (statsOfUsage (env.structureUsage topic))],
          some GenError.attributeError)) ∧
    (∀ t rest, flatten_structure (.consOther t rest) = flatten_structure rest) ∧
    (∀ o, env.structureParsed topic = .object o →
      (generate_book env topic).2 = none) := by
  refine ⟨fun h => ?_, fun h => ?_, fun t rest => rfl, fun o h => ?_⟩ <;>
    simp [generate_book, h]

/-- Witness for C4: a not-JSON outline response fails fatally after two
events, while the silently-skipped entry of `outlineC4` leaves no trace. -/
theorem outline_parse_error_behavior_witness :
    generate_book envC4bad "t" =
      ([Event.progress ("Generated title: " ++ pyStrip (envC4bad.titleResponse "t")),
        Event.stats (statsOfUsage (envC4bad.structureUsage "t"))],
        some GenError.jsonDecodeError) ∧
    flatten_structure (.consOther "A" (.consStr "B" "dB" .nil)) =
      flatten_structure (.consStr "B" "dB" .nil) :=
  ⟨(outline_parse_error_behavior envC4bad "t").1 rfl,
    (outline_parse_error_behavior envC4bad "t").2.2.1 "A" (.consStr "B" "dB" .nil)⟩

/-- C5: merging statistics records is commutative and associative for
summing purposes — merging A, B, C into an accumulator yields the same
record regardless of the order and grouping of the merges (durations
modelled as exact rationals; the receiver's model name is kept by every
merge, so even the non-numeric field agrees). -/
theorem stats_add_comm_assoc (acc A B C : GenerationStatistics) :
    ((acc.add A).add B).add C = acc.add ((A.add B).add C) ∧
    ((acc.add A).add B).add C = ((acc.add B).add A).add C ∧
    ((acc.add A).add B).add C = ((acc.add A).add C).add B := by
  refine ⟨?_, ?_, ?_⟩ <;>
    · simp only [GenerationStatistics.add, GenerationStatistics.mk.injEq, true_and]
      and_intros <;> ring

/-- C6: flattening the outline
`{"A": "descA", "B": {"B1": "descB1", "B2": "descB2"}}` yields exactly the
ordered leaf list `[("A","descA"), ("B1","descB1"), ("B2","descB2")]`;
the nested title "B" is dropped, and in every run over this outline the
generated book's section keys (which become the rendered level-1
headings) are exactly `["A", "B1", "B2"]`, so "B" never becomes a section
or a heading. -/
theorem flatten_drops_nested_titles :
    flatten_structure outlineC6 =
      [("A", "descA"), ("B1", "descB1"), ("B2", "descB2")] ∧
    ∀ (env : Env) (topic : String),
      (generatedBook env topic outlineC6).sections.keys = ["A", "B1", "B2"] := by
  refine ⟨rfl, fun env topic => ?_⟩
  show ((runLeaves env initialStats .nil (flatten_structure outlineC6)).1).keys = _
  rfl

/-- C7: the derived speed accessors return exactly 0 when the
corresponding time field is 0 and tokens divided by time otherwise; they
are total functions, so no division error can be raised. -/
theorem get_speed_zero_guard (s : GenerationStatistics) :
    (s.input_time = 0 → s.get_input_speed = 0) ∧
    (s.input_time ≠ 0 →
      s.get_input_speed = (s.input_tokens : Rat) / s.input_time) ∧
    (s.output_time = 0 → s.get_output_speed = 0) ∧
    (s.output_time ≠ 0 →
      s.get_output_speed = (s.output_tokens : Rat) / s.output_time) := by
  refine ⟨fun h => ?_, fun h => ?_, fun h => ?_, fun h => ?_⟩ <;>
    simp [GenerationStatistics.get_input_speed,
      GenerationStatistics.get_output_speed, h]

/-- Witness for C7 on concrete records with zero and nonzero times. -/
theorem get_speed_zero_guard_witness :
    statsZeroTimes.get_input_speed = 0 ∧
    statsZeroTimes.get_output_speed = 0 ∧
    statsPosTimes.get_input_speed = ((3 : Int) : Rat) / 2 ∧
    statsPosTimes.get_output_speed = ((4 : Int) : Rat) / 4 :=
  ⟨(get_speed_zero_guard statsZeroTimes).1 rfl,
    (get_speed_zero_guard statsZeroTimes).2.2.1 rfl,
    (get_speed_zero_guard statsPosTimes).2.1
      (by show (2 : Rat) ≠ 0; norm_num),
    (get_speed_zero_guard statsPosTimes).2.2.2
      (by show (4 : Rat) ≠ 0; norm_num)⟩

/-- C8: if every chunk of a leaf's stream lacks usage information, the
loop does not fail and yields no statistics event for that leaf: the run
over that leaf plus the remaining leaves equals the run over the
remaining leaves alone, with the leaf's section (its text fragments fully
appended) inserted into the book and the running total unchanged. -/
theorem missing_usage_silently_skipped (env : Env)
    (total : GenerationStatistics) (secs : SectionMap) (t d : String)
    (rest : List (String × String))
    (h : ∀ c ∈ env.sectionStream t d, c.hasUsage = false) :
    runLeaves env total secs ((t, d) :: rest) =
      runLeaves env total (secs.insert t ⟨t, sectionText env t d, .nil⟩) rest := by
  have hss : streamStats (env.sectionStream t d) = [] :=
    streamStats_of_no_usage _ h
  have hr : runLeaf env total t d = (total, sectionText env t d, []) := by
    rw [runLeaf, processChunks_eq, eventStats_generateSection, hss]
    rfl
  simp [runLeaves, hr]

/-- Witness for C8 at a concrete stream with a usage-free text chunk and a
final chunk whose `x_groq` payload has no usage either. -/
theorem missing_usage_silently_skipped_witness :
    runLeaves envW8 initialStats .nil [("S", "dS")] =
      runLeaves envW8 initialStats
        (SectionMap.nil.insert "S" ⟨"S", sectionText envW8 "S" "dS", .nil⟩) [] :=
  missing_usage_silently_skipped envW8 initialStats .nil "S" "dS" [] (by decide)

/-- C9: rendering the book with title "T" and the single section
`{title: "S", content: "C", subsections: {}}` produces exactly the
level-1 heading "T", a blank line, the level-1 heading "S", the content
"C", and a trailing blank line. -/
theorem to_markdown_single_section :
    Book.to_markdown ⟨"T", .cons "S" "S" "C" .nil .nil⟩ = "# T\n\n# S\nC\n\n" := by
  decide

/-- C10: in the final book there is exactly one section per distinct leaf
title (the section keys are duplicate-free and are exactly the flattened
leaf titles), and the section stored under a title holds the content
generated for the last flattened leaf with that title — later duplicate
leaves silently overwrite earlier ones, so the book can contain fewer
sections than there are leaves. -/
theorem duplicate_titles_last_wins (env : Env) (topic : String) (o : Outline) :
    (generatedBook env topic o).sections.keys.Nodup ∧
    (∀ t, t ∈ (generatedBook env topic o).sections.keys ↔
      t ∈ (flatten_structure o).map Prod.fst) ∧
    (∀ t, (generatedBook env topic o).sections.find? t =
      (lastDesc (flatten_structure o) t).map
        (fun d => Section.mk t (sectionText env t d) .nil)) := by
  have hsec : (generatedBook env topic o).sections =
      buildSections env .nil (flatten_structure o) :=
    runLeaves_fst env (flatten_structure o) initialStats .nil
  refine ⟨?_, fun t => ?_, fun t => ?_⟩
  · rw [hsec]
    exact buildSections_nodup_keys env _ .nil (by simp [SectionMap.keys])
  · rw [hsec, buildSections_mem_keys]
    simp [SectionMap.keys]
  · rw [hsec, buildSections_find? env t _ .nil]
    cases lastDesc (flatten_structure o) t <;> simp [SectionMap.find?]

/-- Witness for C10: with two leaves both titled "A", the book has a
single section holding the content generated for the second leaf. -/
theorem duplicate_titles_last_wins_witness :
    (generatedBook envW10 "t" outlineW10).sections.find? "A" =
      some ⟨"A", "d2", .nil⟩ ∧
    (flatten_structure outlineW10).length = 2 ∧
    (generatedBook envW10 "t" outlineW10).sections.keys.length = 1 := by
  refine ⟨?_, rfl, rfl⟩
  rw [(duplicate_titles_last_wins envW10 "t" outlineW10).2.2 "A"]
  rfl

end InfiniteBookshelf
